/-
Verification of the book-agent middleware (book_query_constructor.py and
book_server.py): a shallow embedding of the query constructor and of the
FastAPI endpoints, with theorems about template filling, input guards,
error handling, duplicate skipping and request traces.
-/
import Mathlib

namespace BookAgent

/-- String constant `SYSTEM_PROMPT` of book_query_constructor.py, verbatim. -/
def SYSTEM_PROMPT : String :=
  "\nYou are an expert book assistant specializing in reading analysis and recommendations. \nProvide accurate, helpful responses based on the user's reading data and preferences.\n"

/-- String constant `ROUTING_RULES` of book_query_constructor.py, verbatim. -/
def ROUTING_RULES : String :=
  "\nQuery Type Detection and Response Routing:\n\n• **Book Logging Queries** (use book logging format):\n  - \"I just finished reading Scythe by Neal Shusterman\", \"Started reading Dune today\"\n  - \"Rate this book 4/5\", \"Mark this as finished\", \"Add notes about the ending\"\n  - \"Log book: [book name] by [author]\", \"Update my reading status\"\n  - Book input requests: title, author, rating, status, review, notes\n  - **Frontend Structured Input**: \"Book: [title] | Author: [author] | Rating: [rating]/5 | Status: [status] | Review: [review] | Notes: [notes] | Preferences: [preferences]\"\n  - **IMPORTANT**: Always derive genre from book content, title, or author context\n\n• **Book Profile Queries** (use Book Output Template):\n  - \"show me my Scythe data\", \"tell me about Dune\", \"what's my status on Foundation\"\n  - \"book details for [book name]\", \"full info on [book name]\", \"complete book profile\"\n  - Requests for comprehensive book information (multiple fields or general overview)\n\n• **Recommendation Queries** (use recommendation format):\n  - \"recommend me a book\", \"what should I read next\", \"suggest something similar to Dune\"\n  - \"find books by Neal Shusterman\", \"show me sci-fi books\", \"recommend fantasy\"\n  - \"books like [book name]\", \"similar to [author]\", \"recommend by genre\"\n  - **CRITICAL**: Always check reading history to avoid recommending already read books\n  - Cross-reference book titles and authors from context to prevent duplicates\n\n• **Reading Analytics Queries** (use analytics format):\n  - \"how many books have I read\", \"what's my reading progress\", \"show me my stats\"\n  - \"which genres do I read most\", \"what's my average rating\", \"reading timeline\"\n  - \"books I rated highly\", \"recently finished books\", \"currently reading\"\n\n• **Search & Filter Queries** (use search format):\n  - \"find books with rating 5\", \"show me sci-fi books\", \"books by specific author\"\n  - \"books I'm currently reading\", \"finished books this year\", \"highly rated books\"\n  - \"search for [keyword]\", \"filter by [criteria]\", \"books matching [pattern]\"\n\n• **User Preference Queries** (use preference format):\n  - \"what genres do I like\", \"who are my favorite authors\", \"what's my reading style\"\n  - \"update my preferences\", \"I like fantasy now\", \"add author to favorites\"\n  - \"remove genre from dislikes\", \"update reading preferences\"\n\n• **General Book Queries** (use appropriate format based on content):\n  - \"help me organize my reading\", \"what should I focus on reading\"\n  - \"show me my reading list\", \"what books need attention\"\n\nCRITICAL DECISION TREE:\n1. If query asks for book LOGGING (adding/updating book data) → Use BOOK_LOGGING_RULES\n2. If query asks for book PROFILE information for a SINGLE book → Use BOOK_OUTPUT_TEMPLATE\n3. If query asks for RECOMMENDATIONS → Use RECOMMENDATION_FORMAT\n4. If query asks for READING ANALYTICS → Use analytics format\n5. If query asks for SEARCH/FILTER results → Use search format\n6. If query asks for USER PREFERENCES → Use preference format\n7. All other queries → Use appropriate format based on content\n\nNEVER use the full Book Output Template for logging requests or multi-book queries.\n• **For all other queries**: Answer with the data given to the best of your ability while following the general output rules and formatting requirements.\n"

/-- String constant `DATE_HANDLING_RULES` of book_query_constructor.py, verbatim. -/
def DATE_HANDLING_RULES : String :=
  "\n*Date Handling Rules:*\n• Use EDTF format for incomplete dates, ISO format for complete dates\n• M/D format (e.g., \"7/28:\", \"5/19:\") → output as \"[--MM-DD] content\" format\n• Complete dates (YYYY-MM-DD) → output as \"[YYYY-MM-DD] content\" format\n• Parse consistently across ALL fields - start_date, finish_date, notes\n• *Examples*: \"7/28: content\" → \"[--07-28] content\", \"5/19: content\" → \"[--05-19] content\"\n• *Wrong*: 7/28: → [2025-07-28] | *Correct*: 7/28: → [--07-28]\n• Complete dates use ISO format (YYYY-MM-DD), incomplete dates use EDTF format\n• Multiple dates in sequence: split into separate timeline entries\n• For timeline entries: include date in both value string and date field as \"[EDTF_date] content\"\n• Error handling: If date does not exist at all or parsing fails completely, set date to <CURRENT_DATE>.\n• Only include all entries if the user explicitly requests it.\n"

/-- String constant `PLUS_N_MORE_RULES` of book_query_constructor.py, verbatim. -/
def PLUS_N_MORE_RULES : String :=
  "\n*+N More Rules (Apply to ALL sections):*\n• +N more MUST be on its own separate line below the last entry. Never inline with anything else.\n• +N more MUST have a blank line above it and be completely separate from all other content\n• Format as: \"+N more\" (not <+N>)\n• NEVER show \"+0 more\" - if N = 0, show NOTHING.\n• There must be a completely empty line between the last entry and +N more\n\n*Examples of CORRECT +N more formatting:*\nCORRECT:\n[--05-19] Great character development\n[--05-17] Plot twist was unexpected\n[--05-12] Started reading today\n[--05-05] Highly recommend this book\n\n+2 more\n\nWRONG:\n[--05-19] Great character development\n[--05-17] Plot twist was unexpected\n[--05-12] Started reading today\n[--05-05] Highly recommend this book +2 more\n\nWRONG:\n[--05-19] Great character development\n[--05-17] Plot twist was unexpected\n[--05-12] Started reading today\n[--05-05] Highly recommend this book\n+ 0 more\n"

/-- String constant `DATA_EXTRACTION_RULES` of book_query_constructor.py, verbatim. -/
def DATA_EXTRACTION_RULES : String :=
  "\nData rules\n• Do not invent values. If a requested field is missing, write exactly: (na)\n• Carefully parse all the data provided to you in the DATA block including lower scores.\n• If the user requests a specific book name, ignore data with tag different from the book name.\n• Conflict policy: prefer PROFILE over BOOK_DATA. Prefer newer dated values. If the answer would change due to a conflict, add one line: \"Data conflict noted (brief reason)\". Do not include this line if there is no conflict.\n• Normalize: dates → follow Date Handling Rules above; names → Title Case; merge books case-insensitively; deduplicate authors.\n• Values: keep 0 as is. If important unit is unknown, write the number and add \"(unit unknown)\". If it is provided, make sure to include it.\n• Prioritize newer dates and more relevant fields.\n"

/-- String constant `MULTIPLICITY_RULES` of book_query_constructor.py, verbatim. -/
def MULTIPLICITY_RULES : String :=
  "\nMultiplicity rules\n• authors: format as \"Author Name\" or \"Author Name, Co-Author Name\" for multiple authors. List up to 3, then \"+N more\".\n• notes: single value timeline field with date (delete-then-add pattern, timeline format). \n• multivalue timeline fields: (review / notes) limit to 4 bullets for review, 3 bullets for notes, then \"+N more\" unless user requests more.\n• genres: list up to 5 genres before \"+N more\" unless user requests more.\n• user_preferences: list up to 6 preferences before \"+N more\" unless user requests more.\n• general lists: for most other multi-item responses, list up to 6 items before \"+N more\" unless user requests more.\n"

/-- String constant `CLARIFICATION_RULES` of book_query_constructor.py, verbatim. -/
def CLARIFICATION_RULES : String :=
  "\nClarification\n• Ask at most 2 concise questions only if missing info would materially change the answer.\n• If a partial answer is possible, answer and add one line starting with: Needs: <missing item>.\n• Assumptions may guide formatting only. Label assumptions.\n"

/-- String constant `GENERAL_OUTPUT_RULES` of book_query_constructor.py, verbatim. -/
def GENERAL_OUTPUT_RULES : String :=
  "\nCore Formatting Requirements:\n• Use ONLY Slack-compatible mrkdwn formatting. NEVER use regular markdown.\n• Use *single asterisks* for bold text. NEVER use **double asterisks**\n• NEVER use #, ##, ###, ####, etc. headers in your response\n• NEVER use markdown links [text](url) - just show the URL or text\n• NEVER use markdown lists with numbers or dashes - use • bullet points only\n• Be concise but comprehensive - aim for clarity over brevity\n• When data is missing, use exactly \"(na)\" - never invent values\n• For multiple items, use bullet points with • symbol\n• Always follow the Date Handling Rules for any date formatting\n• If conflicting data exists, note it briefly: \"Data conflict noted (brief reason)\"\n\n*Slack Formatting Examples:*\n• CORRECT: *Book Title* (bold headers)\n• CORRECT: *Section Name* (bold section headers)\n• CORRECT: • bullet point\n• CORRECT: author@domain.com (plain text)\n• WRONG: **Book Title** (double asterisks)\n• WRONG: ### Header (markdown headers)\n• WRONG: [text](url) (markdown links)\n• WRONG: 1. Numbered list (use • instead)\n\nError Handling and Edge Cases:\n• If no data is available for a query, respond: \"No data available for this request\"\n• If multiple books match a search, show all matches with clear headers\n• If data is incomplete, show available information and note what's missing\n• If a book is not found, respond: \"No profile found for [Book Title]\"\n• If conflicting data exists, note it briefly: \"Data conflict noted (brief reason)\"\n• If query is ambiguous, ask for clarification: \"Could you clarify which book you're asking about?\"\n\nResponse Structure Principles:\n• Start with a clear header that indicates what you're showing\n• Use consistent formatting throughout the response\n• Group related information logically\n• Include only relevant information for the query type\n• End with actionable next steps when appropriate\n• Always follow the core formatting requirements above\n\nMulti-Book Query Formatting:\n• For queries covering multiple books (e.g., \"what are all my ratings\"):\n  - Format each entry as: *[Book Title]*: [field value] or (na) if not available\n  - Group entries logically (alphabetically by book title, or by rating/status/priority)\n  - For ratings: Include ratings when available: *[Book Title]*: [rating]/5\n  - For status: Show \"Status: [status]\" format per book\n  - If more than 10 books, show top 10 and add summary line: \"Also: X more books\"\n  - Keep each book entry concise (1-2 lines maximum per book)\n  - Use bullet points (•) for each book entry\n\nList Queries:\n• For specific item type queries (e.g., \"what are my favorite genres\", \"list all books\"):\n  - Show up to 8 items before \"+N more\" unless user requests more\n  - Include relevant details like ratings, authors, or other context when available\n  - Group by popularity, category, alphabetically, or by rating/status as appropriate\n• For general list queries, show up to 6 items before \"+N more\" unless user requests more\n• User override handling:\n  - \"show all\" or \"list all\" → Show all available items without truncation\n  - \"top X\" or \"show top X\" → Show exactly X items (e.g., \"top 5\" shows 5 items)\n  - \"first X\" or \"last X\" → Show exactly X items from beginning or end\n  - Always respect explicit user requests for specific quantities\n"

/-- String constant `BOOK_OUTPUT_RULES` of book_query_constructor.py, verbatim. -/
def BOOK_OUTPUT_RULES : String :=
  "\nBook Profile Output Requirements:\n• Use the Book Output Template structure ONLY for comprehensive book profile queries\n• Start with *Book Title* (not ### Book Title) - ALWAYS replace with actual book title\n• Adapt template sections based on query type:\n  - Full profile queries: Use all sections (*Details*, *Review*, *Notes*, *Reading Timeline*)\n  - Rating queries: Focus on *Details* section, include *Review* if relevant\n  - Status queries: Focus on *Details* and *Reading Timeline* sections\n  - Genre queries: Focus on *Details* section, include *Review* if relevant\n• Follow all General Output Requirements above\n• Length: up to 300 words per book\n• Only show \"(na)\" for fields the user asked for or standard template fields\n• In Details section, ALL field labels must be bold: *Author*:, *Rating*:, *Status*:, *Genre*:\n• For empty sections, still use proper header format: \"*Section Name:*\" followed by \"(na)\" on next line\n\nMulti-Book Responses:\n• One section per book\n• Sort by most recent activity date, then by rating: 5-star, 4-star, 3-star, 2-star, 1-star\n• If more than 5 books, show the top 5 and list the rest in one compact line with counts\n• Example: \"Also: 3 more books (2 rated 4-star, 1 rated 3-star)\"\n\nNote: The Book Output Template is specifically for book profile queries. Other query types should use appropriate formats as defined in the General Output Rules.\n"

/-- String constant `BOOK_LOGGING_RULES` of book_query_constructor.py, verbatim. -/
def BOOK_LOGGING_RULES : String :=
  "\nBook Logging Requirements (for book input/update queries):\n• Use book logging format for book input requests (title, author, rating, status, review, notes)\n• Start with *Book Title* followed by the logging information\n• Format: *[Book Title]*: [logging information] or (na) if not available\n• For author queries: Show \"Author Name\" format\n• For multiple authors: List up to 3, then \"+N more\" if applicable\n• Keep response concise - typically 1-3 lines maximum\n• Do NOT use the full Book Output Template for logging requests\n\nExamples:\n• Query: \"I just finished Scythe by Neal Shusterman, rated it 5/5\" → Response: \"*Scythe*: Logged as finished, rated 5/5 by Neal Shusterman\"\n• Query: \"Started reading Dune today\" → Response: \"*Dune*: Status updated to 'reading'\"\n• Query: \"Add notes: great world-building\" → Response: \"*[Book]*: Notes added - 'great world-building'\"\n"

/-- String constant `RECOMMENDATION_FORMAT` of book_query_constructor.py, verbatim. -/
def RECOMMENDATION_FORMAT : String :=
  "\nRecommendation Format Requirements:\n• Use recommendation format for book suggestion queries\n• Start with *Recommendations* header\n• Format each recommendation as: *[Book Title]* by [Author] - [Brief reason]\n• Include rating and genre when available\n• Group by similarity type (similar to X, same author, same genre)\n• Show up to 5 recommendations before \"+N more\" unless user requests more\n• Include brief explanation for each recommendation\n• **CRITICAL**: NEVER recommend books that are already in the user's reading history\n• Check reading history for book titles and authors to avoid duplicates\n• If no recommendations available, suggest based on reading history or popular books\n\nExamples:\n• Query: \"recommend something like Dune\" → Response: \"*Recommendations*: *Foundation* by Isaac Asimov - Similar epic sci-fi with complex world-building\"\n• Query: \"what should I read next\" → Response: \"*Recommendations*: Based on your reading history...\"\n• Query: \"suggest sci-fi books\" → Response: \"*Recommendations*: *Hyperion* by Dan Simmons - Award-winning sci-fi with multiple perspectives (avoiding books already read)\"\n"

/-- String constant `BOOK_OUTPUT_TEMPLATE` of book_query_constructor.py, verbatim. -/
def BOOK_OUTPUT_TEMPLATE : String :=
  "\n*Book Output Template Structure:*\n\nIMPORTANT: Use this template ONLY for comprehensive book profile queries, NOT for logging requests.\n\nFor book profile queries, use this structure (REPLACE [Book Title] with actual book title):\n\n*[Book Title]*\n\n*Details:*\n• *Author*: [value or (na)] (value where feature=author)\n• *Rating*: [value or (na)] (value where feature=rating)\n• *Status*: [value or (na)] (value where feature=status)\n• *Genre*: [value or (na)] (value where feature=genre) - Display multiple genres as comma-separated list\n• *Started*: [value or (na)] (value where feature=start_date)\n• *Finished*: [value or (na)] (value where feature=finish_date)\n\n*Review:* (value where feature=review)\n• Only 4 bullets (max) with dates in EDTF format when available, otherwise show as-is.\n• Follow Date Handling Rules above for consistent formatting.\n• Follow +N More Rules above for formatting\n• Always format header as \"*Review:*\" (with colon)\n• If no review, show \"(na)\" on the next line, not inline.\n\n*Notes:* (value where feature=notes)\n• Only 3 bullets (max) with dates in EDTF format when available, otherwise show as-is.\n• Follow Date Handling Rules above for consistent formatting.\n• Follow +N More Rules above for formatting\n• Always format header as \"*Notes:*\" (with colon)\n• If no notes, show \"(na)\" on the next line, not inline.\n\n*Reading Timeline:* (value where feature=start_date, finish_date, status updates)\n• When including dates, place them BEFORE the text: \"[--07-29] string\"\n• Follow +N More Rules above for formatting\n• If no timeline, show \"(na)\" on the next line, not inline.\n• Always format as \"*Reading Timeline:*\" (with colon)\n\nNOTE: Do NOT use this template for logging requests like \"I just finished Scythe\" - use book logging format instead.\n"

/-- List constant `AVAILABLE_FIELDS` of book_query_constructor.py, verbatim. -/
def AVAILABLE_FIELDS : List String :=
  ["book_title", "author", "rating", "status", "review", "notes", "genre", "style", "start_date", "finish_date", "reading_preferences", "user_preferences", "recommendation_reason"]

/-- List constant `CANONICAL_FIELDS` of book_query_constructor.py, verbatim. -/
def CANONICAL_FIELDS : List String :=
  ["book_title", "author", "rating", "status", "review", "notes", "genre", "start_date", "finish_date", "reading_preferences"]

/-- Dict constant `FIELD_ALIASES` of book_query_constructor.py, verbatim, in insertion order. -/
def FIELD_ALIASES : List (String × String) :=
  [("book_title", "book_title"), ("title", "book_title"), ("author", "author"), ("rating|score|stars", "rating"), ("status|reading_status", "status"), ("review|thoughts|opinion", "review"), ("notes|comments", "notes"), ("genre|category", "genre"), ("style|writing_style", "style"), ("start_date|started", "start_date"), ("finish_date|finished|completed", "finish_date"), ("preferences|user_preferences", "reading_preferences")]

/-- The raw triple-quoted template literal inside `_build_unified_query_template` (before .strip()). -/
def UNIFIED_TEMPLATE_RAW : String :=
  "\n<SYSTEM_PROMPT>\n{config_json}\n</SYSTEM_PROMPT>\n\n<DATA>\n<PROFILE>\n{profile}\n</PROFILE>\n\n<BOOK_DATA>\n{context_block}\n</BOOK_DATA>\n\n<USER_QUERY>\n{query}\n</USER_QUERY>\n</DATA>\n"

/-- The single-quote character, used when rendering Python repr and KeyError messages. -/
def squote : Char := '\''

/-- Python exception values thrown by the embedded code, carrying their message. -/
inductive PyExc where
  | valueError (msg : String)
  | runtimeError (msg : String)
  | keyError (key : String)
  | typeError (msg : String)
  | attributeError (msg : String)
  | httpError (msg : String)
  | requestError (msg : String)
  | jsonError (msg : String)
deriving DecidableEq

/-- Python str(e) for an exception: the message (for KeyError, the repr of the key). -/
def PyExc.str : PyExc → String
  | .valueError m => m
  | .runtimeError m => m
  | .keyError k => String.singleton squote ++ k ++ String.singleton squote
  | .typeError m => m
  | .attributeError m => m
  | .httpError m => m
  | .requestError m => m
  | .jsonError m => m

/-- The whitespace characters stripped by Python str.strip (ASCII subset). -/
def isPyWs (c : Char) : Bool :=
  c = ' ' || c = '\t' || c = '\n' || c = '\r' || c = '\x0b' || c = '\x0c'

/-- Model of Python str.strip(): drop leading and trailing whitespace. -/
def pyStrip (s : String) : String :=
  String.mk (((s.data.dropWhile isPyWs).reverse.dropWhile isPyWs).reverse)

/-- JSON-like values: the Python values stored in CONFIG and travelling through
the middleware as parsed JSON (None, bool, int, str, list, dict). -/
inductive JVal where
  | jnull
  | jbool (b : Bool)
  | jnum (n : Int)
  | jstr (s : String)
  | jarr (xs : List JVal)
  | jobj (kvs : List (String × JVal))

/-- Python truthiness of a JSON-like value. -/
def jTruthy : JVal → Bool
  | .jnull => false
  | .jbool b => b
  | .jnum n => n != 0
  | .jstr s => s ≠ ""
  | .jarr xs => !xs.isEmpty
  | .jobj kvs => !kvs.isEmpty

/-- Lowercase hex digit. -/
def hexDigit (n : Nat) : Char := Nat.digitChar (n % 16)

/-- A \uXXXX escape for a code unit. -/
def uHex4 (n : Nat) : List Char :=
  ['\\', 'u', hexDigit (n / 4096), hexDigit (n / 256), hexDigit (n / 16), hexDigit n]

/-- Model of CPython json's py_encode_basestring_ascii for one character
(ensure_ascii=True, the json.dumps default). -/
def jsonEscChar (c : Char) : List Char :=
  if c = '"' then ['\\', '"']
  else if c = '\\' then ['\\', '\\']
  else if c = '\n' then ['\\', 'n']
  else if c = '\r' then ['\\', 'r']
  else if c = '\t' then ['\\', 't']
  else if c = '\x08' then ['\\', 'b']
  else if c = '\x0c' then ['\\', 'f']
  else if 0x20 ≤ c.toNat && c.toNat ≤ 0x7e then [c]
  else if c.toNat < 0x10000 then uHex4 c.toNat
  else
    let v := c.toNat - 0x10000
    uHex4 (0xd800 + v / 0x400) ++ uHex4 (0xdc00 + v % 0x400)

/-- JSON string escaping of a whole string (without the surrounding quotes). -/
def jsonEsc (s : String) : List Char :=
  s.data.foldr (fun c r => jsonEscChar c ++ r) []

/-- n spaces, the indentation json.dumps(indent=2) writes at depth n/2. -/
def indentChars (n : Nat) : List Char := List.replicate n ' '

mutual

/-- Model of json.dumps(v, indent=2) at nesting level lvl, as characters. -/
def dumpsVal : JVal → Nat → List Char
  | .jnull, _ => "null".data
  | .jbool true, _ => "true".data
  | .jbool false, _ => "false".data
  | .jnum n, _ => (toString n).data
  | .jstr s, _ => '"' :: (jsonEsc s ++ ['"'])
  | .jarr [], _ => ['[', ']']
  | .jarr (x :: xs), lvl =>
      '[' :: '\n' :: (indentChars (2 * (lvl + 1)) ++
        (dumpsArrItems x xs (lvl + 1) ++ ('\n' :: (indentChars (2 * lvl) ++ [']']))))
  | .jobj [], _ => ['{', '}']
  | .jobj (kv :: kvs), lvl =>
      '{' :: '\n' :: (indentChars (2 * (lvl + 1)) ++
        (dumpsObjItems kv kvs (lvl + 1) ++ ('\n' :: (indentChars (2 * lvl) ++ ['}']))))
termination_by v _ => sizeOf v
decreasing_by all_goals (simp_wf <;> omega)

/-- The comma-newline-indent separated items of a JSON array. -/
def dumpsArrItems : JVal → List JVal → Nat → List Char
  | x, [], lvl => dumpsVal x lvl
  | x, y :: ys, lvl =>
      dumpsVal x lvl ++ (',' :: '\n' :: (indentChars (2 * lvl) ++ dumpsArrItems y ys lvl))
termination_by x xs _ => 1 + sizeOf x + sizeOf xs
decreasing_by all_goals (simp_wf <;> omega)

/-- The comma-newline-indent separated "key": value items of a JSON object. -/
def dumpsObjItems : (String × JVal) → List (String × JVal) → Nat → List Char
  | (k, v), [], lvl => '"' :: (jsonEsc k ++ ('"' :: ':' :: ' ' :: dumpsVal v lvl))
  | (k, v), kv :: kvs, lvl =>
      ('"' :: (jsonEsc k ++ ('"' :: ':' :: ' ' :: dumpsVal v lvl))) ++
        (',' :: '\n' :: (indentChars (2 * lvl) ++ dumpsObjItems kv kvs lvl))
termination_by kv kvs _ => 1 + sizeOf kv + sizeOf kvs
decreasing_by all_goals (simp_wf <;> omega)

end

/-- Model of json.dumps(v, indent=2). -/
def jsonDumps (v : JVal) : String := String.mk (dumpsVal v 0)

/-- Python repr escaping of one character inside a single-quoted string literal
(the common cases: backslash, quote, newline, carriage return, tab). -/
def reprEscChar (c : Char) : List Char :=
  if c = '\\' then ['\\', '\\']
  else if c = squote then ['\\', squote]
  else if c = '\n' then ['\\', 'n']
  else if c = '\r' then ['\\', 'r']
  else if c = '\t' then ['\\', 't']
  else [c]

/-- Python repr of a string value: single quotes around the escaped text. -/
def reprStr (s : String) : String :=
  String.singleton squote ++ (String.mk (s.data.foldr (fun c r => reprEscChar c ++ r) []) ++ String.singleton squote)

mutual

/-- Model of Python repr() on JSON-parsed values: None, True, ints,
single-quoted strings, [lists] and dicts of key: value pairs. -/
def pyRepr : JVal → String
  | .jnull => "None"
  | .jbool true => "True"
  | .jbool false => "False"
  | .jnum n => toString n
  | .jstr s => reprStr s
  | .jarr [] => "[]"
  | .jarr (x :: xs) => "[" ++ (pyReprArr x xs ++ "]")
  | .jobj [] => String.mk ['{', '}']
  | .jobj (kv :: kvs) => String.singleton '{' ++ (pyReprObj kv kvs ++ String.singleton '}')
termination_by v => sizeOf v
decreasing_by all_goals (simp_wf <;> omega)

/-- Comma separated repr of list items. -/
def pyReprArr : JVal → List JVal → String
  | x, [] => pyRepr x
  | x, y :: ys => pyRepr x ++ (", " ++ pyReprArr y ys)
termination_by x xs => 1 + sizeOf x + sizeOf xs
decreasing_by all_goals (simp_wf <;> omega)

/-- Comma separated repr of dict items. -/
def pyReprObj : (String × JVal) → List (String × JVal) → String
  | (k, v), [] => reprStr k ++ (": " ++ pyRepr v)
  | (k, v), kv :: kvs => (reprStr k ++ (": " ++ pyRepr v)) ++ (", " ++ pyReprObj kv kvs)
termination_by kv kvs => 1 + sizeOf kv + sizeOf kvs
decreasing_by all_goals (simp_wf <;> omega)

end

/-- Model of Python str() on JSON-parsed values: a str prints itself,
everything else prints as its repr. -/
def pyStr : JVal → String
  | .jstr s => s
  | v => pyRepr v

mutual

/-- Model of Python str.format scanning: copy characters, expand doubled
braces, and substitute placeholder names from subs. -/
def formatScan (subs : List (String × String)) : List Char → Except PyExc (List Char)
  | [] => .ok []
  | '{' :: '{' :: rest =>
      match formatScan subs rest with
      | .ok out => .ok ('{' :: out)
      | .error e => .error e
  | '}' :: '}' :: rest =>
      match formatScan subs rest with
      | .ok out => .ok ('}' :: out)
      | .error e => .error e
  | '{' :: rest => formatName subs [] rest
  | '}' :: _ => .error (.valueError "Single brace encountered in format string")
  | c :: rest =>
      match formatScan subs rest with
      | .ok out => .ok (c :: out)
      | .error e => .error e

/-- Inside a placeholder: accumulate the name up to the closing brace, then
look it up (a missing name is Python's KeyError). -/
def formatName (subs : List (String × String)) (acc : List Char) : List Char → Except PyExc (List Char)
  | [] => .error (.valueError "Single brace encountered in format string")
  | '}' :: rest =>
      let name := String.mk acc.reverse
      match List.lookup name subs with
      | some v =>
          match formatScan subs rest with
          | .ok out => .ok (v.data ++ out)
          | .error e => .error e
      | none => .error (.keyError name)
  | c :: rest => formatName subs (c :: acc) rest

end

/-- Model of Python template.format(**subs) returning the filled string. -/
def pyFormat (template : String) (subs : List (String × String)) : Except PyExc String :=
  match formatScan subs template.data with
  | .ok out => .ok (String.mk out)
  | .error e => .error e

/-- The CONFIG dictionary of book_query_constructor.py, in insertion order. -/
def CONFIG : List (String × JVal) :=
  [("SYSTEM_PROMPT", .jstr SYSTEM_PROMPT),
   ("ROUTING_RULES", .jstr ROUTING_RULES),
   ("DATE_HANDLING_RULES", .jstr DATE_HANDLING_RULES),
   ("PLUS_N_MORE_RULES", .jstr PLUS_N_MORE_RULES),
   ("DATA_EXTRACTION_RULES", .jstr DATA_EXTRACTION_RULES),
   ("AVAILABLE_FIELDS", .jarr (AVAILABLE_FIELDS.map .jstr)),
   ("CANONICAL_FIELDS", .jarr (CANONICAL_FIELDS.map .jstr)),
   ("FIELD_ALIASES", .jobj (FIELD_ALIASES.map (fun kv => (kv.1, .jstr kv.2)))),
   ("MULTIPLICITY_RULES", .jstr MULTIPLICITY_RULES),
   ("CLARIFICATION_RULES", .jstr CLARIFICATION_RULES),
   ("GENERAL_OUTPUT_RULES", .jstr GENERAL_OUTPUT_RULES),
   ("BOOK_OUTPUT_RULES", .jstr BOOK_OUTPUT_RULES),
   ("BOOK_LOGGING_RULES", .jstr BOOK_LOGGING_RULES),
   ("RECOMMENDATION_FORMAT", .jstr RECOMMENDATION_FORMAT),
   ("BOOK_OUTPUT_TEMPLATE", .jstr BOOK_OUTPUT_TEMPLATE)]

/-- The unified query template: the raw literal with .strip() applied, as in
_build_unified_query_template (and self.prompt_template of BookQueryConstructor). -/
def prompt_template : String := pyStrip UNIFIED_TEMPLATE_RAW

/-- The json.dumps(CONFIG.copy() with CURRENT_DATE set to today, indent=2)
string that create_query substitutes for the config_json placeholder. -/
def configJsonFor (today : String) : String :=
  jsonDumps (.jobj (CONFIG ++ [("CURRENT_DATE", .jstr today)]))

/-- A create_query argument as the dynamically typed Python value it may be:
None, a str, or a value of any other type (rejected by isinstance checks). -/
inductive PyParam where
  | pnone
  | pstr (s : String)
  | pother
deriving DecidableEq

/-- Model of BookQueryConstructor.create_query. The ambient current date
(datetime.now().strftime of the Y-m-d format in _current_date_iso) is passed
explicitly as today. json.dumps cannot raise TypeError on these values (all
str, list and dict), so the serialization fallback branch is not reachable
and is not modelled. -/
def create_query (profile context : PyParam) (query : String) (today : String) :
    Except PyExc String :=
  if query = "" || pyStrip query = "" then
    .error (.valueError "Query cannot be empty")
  else if profile = .pother then
    .error (.valueError "Profile must be a string or None")
  else if context = .pother then
    .error (.valueError "Context must be a string or None")
  else
    let profile_str : String := match profile with
      | .pstr s => if s = "" then "" else s
      | _ => ""
    let context_block : String := match context with
      | .pstr s => if s = "" then "" else s ++ "\n\n"
      | _ => ""
    let config_json := configJsonFor today
    match pyFormat prompt_template
        [("config_json", config_json), ("profile", profile_str),
         ("context_block", context_block), ("query", query)] with
    | .ok r => .ok r
    | .error (.keyError k) =>
        .error (.runtimeError ("Failed to format prompt due to missing key: " ++
          (String.singleton squote ++ k ++ String.singleton squote)))
    | .error _ => .ok (profile_str ++ ("\n\n" ++ (context_block ++ query)))

/-- Modelled from the claim: the unified template with config_json replaced by
the indent-2 JSON serialization of CONFIG extended with a CURRENT_DATE entry,
profile replaced by the profile (or empty when None), context_block replaced
by the context followed by two newlines (or empty when None or empty), and
query replaced verbatim, inside the fixed tag structure. -/
def specExpectedQuery (profile context : PyParam) (query today : String) : String :=
  "<SYSTEM_PROMPT>\n" ++ (configJsonFor today ++
    ("\n</SYSTEM_PROMPT>\n\n<DATA>\n<PROFILE>\n" ++
      ((match profile with | .pstr s => s | _ => "") ++
        ("\n</PROFILE>\n\n<BOOK_DATA>\n" ++
          ((match context with | .pstr s => if s = "" then "" else s ++ "\n\n" | _ => "") ++
            ("\n</BOOK_DATA>\n\n<USER_QUERY>\n" ++
              (query ++ "\n</USER_QUERY>\n</DATA>")))))))

mutual

/-- The placeholder names appearing in a format template, in order
(doubled braces are escapes and carry no placeholder). -/
def placeholderScan : List Char → List String
  | [] => []
  | '{' :: '{' :: rest => placeholderScan rest
  | '}' :: '}' :: rest => placeholderScan rest
  | '{' :: rest => placeholderName [] rest
  | _ :: rest => placeholderScan rest

/-- Accumulate one placeholder name up to its closing brace. -/
def placeholderName (acc : List Char) : List Char → List String
  | [] => [String.mk acc.reverse]
  | '}' :: rest => String.mk acc.reverse :: placeholderScan rest
  | c :: rest => placeholderName (c :: acc) rest

end

/-- The placeholders of a template string. -/
def templatePlaceholders (t : String) : List String := placeholderScan t.data

/-- The memory backend base URL (the MEMORY_BACKEND_URL environment default). -/
def MEMORY_BACKEND_URL : String := "http://localhost:8080"

/-- URL of the memory store endpoint. -/
def memoriesUrl : String := MEMORY_BACKEND_URL ++ "/v1/memories"

/-- URL of the memory semantic-search endpoint. -/
def searchUrl : String := MEMORY_BACKEND_URL ++ "/v1/memories/search"

/-- An HTTP response from the memory backend: status code, text, and the
outcome of calling .json() on it. -/
structure HttpResp where
  status : Nat
  text : String
  jsonBody : Except PyExc JVal

/-- The ambient state a request handler runs against: how the memory backend
answers each posted url and body (or which exception the post raises), the
OpenAI key, how the LLM answers a prompt, and the current date and time. -/
structure World where
  memResponse : String → JVal → Except PyExc HttpResp
  openaiKey : Option String
  llmResult : String → Except PyExc String
  today : String
  nowIso : String

/-- One external call made by an endpoint: an HTTP post to the memory backend
(with the timeout passed to requests.post) or an OpenAI chat completion
(for which the code passes no timeout). -/
inductive Call where
  | mem (url : String) (body : JVal) (timeout : Option Nat)
  | llm (message : String) (timeout : Option Nat)

/-- Sequence a traced Except computation into a dependent one, accumulating
the trace of external calls. -/
def pbind {α β : Type} (x : Except PyExc α × List Call)
    (f : α → Except PyExc β × List Call) : Except PyExc β × List Call :=
  match x with
  | (.ok a, t) => ((f a).1, t ++ (f a).2)
  | (.error e, t) => (.error e, t)

/-- A traced computation returning a value and making no call. -/
def pret {α : Type} (a : α) : Except PyExc α × List Call := (.ok a, [])

/-- Lift an untraced Except value into a traced computation. -/
def plift {α : Type} (x : Except PyExc α) : Except PyExc α × List Call := (x, [])

/-- requests.post to the memory backend with a timeout: records the call and
returns the world's answer. -/
def httpPost (w : World) (url : String) (body : JVal) (timeout : Nat) :
    Except PyExc HttpResp × List Call :=
  (w.memResponse url body, [Call.mem url body (some timeout)])

/-- Model of requests.Response.raise_for_status: raise HTTPError on 4xx/5xx. -/
def raiseForStatus (r : HttpResp) (url : String) : Except PyExc Unit :=
  if 400 ≤ r.status && r.status < 600 then
    .error (.httpError (toString r.status ++ " Error for url: " ++ url))
  else
    .ok ()

/-- The session dictionary each endpoint builds. -/
def sessionJ (uid sid : String) : JVal :=
  .jobj [("group_id", .jstr uid),
         ("agent_id", .jarr [.jstr "assistant"]),
         ("user_id", .jarr [.jstr uid]),
         ("session_id", .jstr sid)]

/-- The search request dictionary: session, query, limit, producer_id filter. -/
def searchBody (uid sid q : String) (lim : Int) : JVal :=
  .jobj [("session", sessionJ uid sid),
         ("query", .jstr q),
         ("limit", .jnum lim),
         ("filter", .jobj [("producer_id", .jstr uid)])]

/-- Python dict.get(key, default) on a parsed JSON value; on a non-dict the
attribute lookup raises AttributeError. -/
def pyGet (j : JVal) (k : String) (dflt : JVal) : Except PyExc JVal :=
  match j with
  | .jobj kvs => .ok ((List.lookup k kvs).getD dflt)
  | _ => .error (.attributeError "object has no attribute get")

/-- search_results.get("content", dict()).get("episodic_memory", list()). -/
def contentEpisodic (j : JVal) : Except PyExc JVal := do
  let c ← pyGet j "content" (.jobj [])
  pyGet c "episodic_memory" (.jarr [])

/-- search_results.get("content", dict()).get("profile_memory", list()). -/
def contentProfile (j : JVal) : Except PyExc JVal := do
  let c ← pyGet j "content" (.jobj [])
  pyGet c "profile_memory" (.jarr [])

/-- Python iteration over a parsed JSON value: a list yields its items, a str
its characters, a dict its keys; other values raise TypeError. -/
def pyIter (j : JVal) : Except PyExc (List JVal) :=
  match j with
  | .jarr xs => .ok xs
  | .jstr s => .ok (s.data.map (fun c => .jstr (String.singleton c)))
  | .jobj kvs => .ok (kvs.map (fun kv => .jstr kv.1))
  | _ => .error (.typeError "object is not iterable")

/-- Whether one returned memory is a dict whose metadata dict maps
book_message_id to the searched id (the loop body of
is_book_message_processed; a str only equals a str in Python). -/
def memMatches (m : JVal) (book_message_id : String) : Bool :=
  match m with
  | .jobj kvs =>
      match List.lookup "metadata" kvs with
      | some (.jobj md) =>
          match (List.lookup "book_message_id" md).getD .jnull with
          | .jstr s => s = book_message_id
          | _ => false
      | _ => false
  | _ => false

/-- The except-Exception-return-False pattern of is_book_message_processed:
an ok result is the computed boolean, any exception yields False. -/
def exceptToBoolFalse : Except PyExc Bool → Bool
  | .ok b => b
  | .error _ => false

/-- Model of is_book_message_processed: search MemMachine for the message id
and scan the episodic memories; any exception is caught and yields False. -/
def is_book_message_processed (w : World) (book_message_id uid sid : String) :
    Bool × List Call :=
  let body := searchBody uid sid ("book_message_id " ++ book_message_id) 5
  let res : Except PyExc Bool := do
    let resp ← w.memResponse searchUrl body
    raiseForStatus resp searchUrl
    let j ← resp.jsonBody
    let epi ← contentEpisodic j
    let items ← pyIter epi
    pure (items.any (fun m => memMatches m book_message_id))
  (exceptToBoolFalse res, [Call.mem searchUrl body (some 10)])

/-- The response POST /memory returns when it skips a duplicate. -/
def skippedDict : JVal :=
  .jobj [("status", .jstr "skipped"), ("message", .jstr "Message already processed")]

/-- The response every endpoint returns when an exception is caught:
status error and the stringified exception. -/
def errDict (e : PyExc) : JVal :=
  .jobj [("status", .jstr "error"), ("message", .jstr e.str)]

/-- The episode dictionary POST /memory sends to the memory backend. -/
def episodeDataStore (uid q nowIso : String) (mid : Option String) : JVal :=
  .jobj [("session", sessionJ uid ("session_" ++ uid)),
         ("producer", .jstr uid),
         ("produced_for", .jstr "assistant"),
         ("episode_content", .jstr q),
         ("episode_type", .jstr "message"),
         ("metadata", .jobj
           [("speaker", .jstr uid),
            ("timestamp", .jstr nowIso),
            ("type", .jstr "message"),
            ("book_message_id", match mid with | some s => .jstr s | none => .jnull)])]

/-- The episode dictionary POST /memory/store-and-search sends (its metadata
has no book_message_id entry). -/
def episodeDataSS (uid q nowIso : String) : JVal :=
  .jobj [("session", sessionJ uid ("session_" ++ uid)),
         ("producer", .jstr uid),
         ("produced_for", .jstr "assistant"),
         ("episode_content", .jstr q),
         ("episode_type", .jstr "message"),
         ("metadata", .jobj
           [("speaker", .jstr uid),
            ("timestamp", .jstr nowIso),
            ("type", .jstr "message")])]

/-- Python truthiness of the optional book_message_id argument. -/
def midTruthy : Option String → Bool
  | some s => s ≠ ""
  | none => false

/-- The "if memory: join/str else empty" formatting the server applies to
profile_memory and episodic_memory before create_query. -/
def memToStr (v : JVal) : String :=
  if jTruthy v then
    match v with
    | .jarr xs => String.intercalate "\n" (xs.map pyStr)
    | _ => pyStr v
  else ""

/-- Model of generate_openai_response: missing key yields a warning string
without calling the LLM; an LLM exception is caught and stringified. -/
def generate_openai_response (w : World) (formatted_query : String) :
    String × List Call :=
  match w.openaiKey with
  | none => ("⚠️ OpenAI API key not configured", [])
  | some _ =>
      match w.llmResult formatted_query with
      | .ok a => (a, [Call.llm formatted_query none])
      | .error e => ("⚠️ Error generating AI response: " ++ e.str, [Call.llm formatted_query none])

/-- The catch-all every endpoint wraps its try-block in: an ok value is
returned as is, a raised exception becomes the stringified error dictionary. -/
def catchAll (x : Except PyExc JVal × List Call) : JVal × List Call :=
  match x with
  | (.ok v, t) => (v, t)
  | (.error e, t) => (errDict e, t)

/-- The try-block of POST /memory: optional duplicate check, then store. -/
def store_data_try (w : World) (uid q : String) (mid : Option String) :
    Except PyExc JVal × List Call :=
  let doStore : Except PyExc JVal × List Call :=
    pbind (httpPost w memoriesUrl (episodeDataStore uid q w.nowIso mid) 1000) (fun resp =>
      pbind (plift (raiseForStatus resp memoriesUrl)) (fun _ =>
        pbind (plift resp.jsonBody) (fun j =>
          pret (.jobj [("status", .jstr "success"), ("data", j)]))))
  if midTruthy mid then
    let dup := is_book_message_processed w (mid.getD "") uid ("session_" ++ uid)
    if dup.1 then (.ok skippedDict, dup.2)
    else (doStore.1, dup.2 ++ doStore.2)
  else doStore

/-- POST /memory: the try-block with the catch-all that stringifies. -/
def store_data (w : World) (uid q : String) (mid : Option String) :
    JVal × List Call :=
  catchAll (store_data_try w uid q mid)

/-- The try-block of POST /ai-query: semantic search, prompt construction,
LLM call, success dictionary. -/
def process_ai_query_try (w : World) (uid q : String) :
    Except PyExc JVal × List Call :=
  pbind (httpPost w searchUrl (searchBody uid ("session_" ++ uid) q 20) 30) (fun resp =>
    pbind (plift (raiseForStatus resp searchUrl)) (fun _ =>
      pbind (plift resp.jsonBody) (fun j =>
        pbind (plift (contentEpisodic j)) (fun epi =>
          pbind (plift (contentProfile j)) (fun prof =>
            let profile_str := memToStr prof
            let context_str := memToStr epi
            pbind (plift (create_query (.pstr profile_str) (.pstr context_str) q w.today)) (fun fq =>
              let ai := generate_openai_response w fq
              ((.ok (.jobj [("status", .jstr "success"),
                            ("ai_response", .jstr ai.1),
                            ("response", .jstr ai.1),
                            ("context", .jstr context_str),
                            ("formatted_query", .jstr fq),
                            ("query", .jstr q)])), ai.2)))))))

/-- POST /ai-query with its catch-all. -/
def process_ai_query (w : World) (uid q : String) : JVal × List Call :=
  catchAll (process_ai_query_try w uid q)

/-- The try-block of GET /memory: search (with an explicit non-200 early
return rather than raise_for_status), prompt construction, LLM call. -/
def get_data_try (w : World) (q uid ts : String) :
    Except PyExc JVal × List Call :=
  pbind (httpPost w searchUrl (searchBody uid ("session_" ++ uid) q 20) 1000) (fun resp =>
    if resp.status ≠ 200 then
      pret (.jobj [("status", .jstr "error"),
                   ("message", .jstr ("Backend returned " ++ toString resp.status ++ ": " ++ resp.text))])
    else
      pbind (plift resp.jsonBody) (fun j =>
        pbind (plift (pyGet j "content" (.jobj []))) (fun c =>
          pbind (plift (pyGet c "episodic_memory" (.jarr []))) (fun epi =>
            pbind (plift (pyGet c "profile_memory" (.jarr []))) (fun prof =>
              let profile_str := memToStr prof
              let context_str := memToStr epi
              pbind (plift (create_query (.pstr profile_str) (.pstr context_str) q w.today)) (fun fq =>
                let ai := generate_openai_response w fq
                ((.ok (.jobj [("status", .jstr "success"),
                              ("data", .jobj [("profile", prof), ("context", epi)]),
                              ("formatted_query", .jstr fq),
                              ("ai_response", .jstr ai.1),
                              ("query_type", .jstr "book")])), ai.2)))))))

/-- GET /memory with its catch-all (the timestamp parameter is accepted and
unused, as in the source). -/
def get_data (w : World) (q uid ts : String) : JVal × List Call :=
  catchAll (get_data_try w q uid ts)

/-- The try-block of POST /memory/store-and-search: store, then search, with
non-200 early returns, then a plain-string response built around the
constructed prompt. -/
def store_and_search_try (w : World) (uid q : String) :
    Except PyExc JVal × List Call :=
  pbind (httpPost w memoriesUrl (episodeDataSS uid q w.nowIso) 1000) (fun resp =>
    if resp.status ≠ 200 then
      pret (.jobj [("status", .jstr "error"),
                   ("message", .jstr ("Store failed with " ++ toString resp.status ++ ": " ++ resp.text))])
    else
      pbind (httpPost w searchUrl (searchBody uid ("session_" ++ uid) q 5) 1000) (fun sresp =>
        if sresp.status ≠ 200 then
          pret (.jobj [("status", .jstr "error"),
                       ("message", .jstr ("Search failed with " ++ toString sresp.status ++ ": " ++ sresp.text))])
        else
          pbind (plift (raiseForStatus sresp searchUrl)) (fun _ =>
            pbind (plift sresp.jsonBody) (fun j =>
              pbind (plift (pyGet j "content" (.jobj []))) (fun c =>
                pbind (plift (pyGet c "episodic_memory" (.jarr []))) (fun epi =>
                  pbind (plift (pyGet c "profile_memory" (.jarr []))) (fun prof =>
                    let profile_str := memToStr prof
                    let context_str := memToStr epi
                    pbind (plift (create_query (.pstr profile_str) (.pstr context_str) q w.today)) (fun fq =>
                      pret (.jstr
                        (if jTruthy prof && jTruthy epi then
                          "Profile: " ++ (pyStr prof ++ ("\n\nContext: " ++ (pyStr epi ++ ("\n\nFormatted Response:\n" ++ fq))))
                        else if jTruthy prof then
                          "Profile: " ++ (pyStr prof ++ ("\n\nFormatted Response:\n" ++ fq))
                        else if jTruthy epi then
                          "Context: " ++ (pyStr epi ++ ("\n\nFormatted Response:\n" ++ fq))
                        else
                          "Message ingested successfully. No relevant context found yet.\n\nFormatted Response:\n" ++ fq))))))))))

/-- POST /memory/store-and-search with its catch-all. -/
def store_and_search_data (w : World) (uid q : String) : JVal × List Call :=
  catchAll (store_and_search_try w uid q)

/-- Whether a recorded call carries one of the fixed timeouts the source
writes at its call sites (10, 30 and 1000 seconds for requests.post; the
OpenAI call passes none). -/
def callFixedTimeout : Call → Bool
  | .mem _ _ t => t = some 10 || t = some 30 || t = some 1000
  | .llm _ t => t = none

/-- Dictionary lookup on a JSON value (None on non-dicts), used to state
which fields a forwarded request body carries. -/
def jLookup (j : JVal) (k : String) : Option JVal :=
  match j with
  | .jobj kvs => List.lookup k kvs
  | _ => none

/-- create_query as the server invokes it against the ambient state: the
current date is read from the world (datetime.now() inside the constructor). -/
def create_query_in (w : World) (profile context : PyParam) (query : String) :
    Except PyExc String :=
  create_query profile context query w.today

/-- A world whose memory backend always answers 200 with an empty JSON object,
with an OpenAI key configured and an LLM that always answers "the answer". -/
def okWorld : World :=
  ⟨fun _ _ => .ok ⟨200, "", .ok (.jobj [])⟩, some "sk-test",
   fun _ => .ok "the answer", "2026-01-01", "2026-01-01T12:00:00"⟩

/-- A world whose memory backend refuses every connection and that has no
OpenAI key. -/
def failWorld : World :=
  ⟨fun _ _ => .error (.requestError "connection refused"), none,
   fun _ => .error (.requestError "no llm"), "2026-01-01", "2026-01-01T12:00:00"⟩

/-- A world whose memory backend answers 200 with a body that is not valid
JSON, so response.json() raises. -/
def badJsonWorld : World :=
  ⟨fun _ _ => .ok ⟨200, "bad", .error (.jsonError "Expecting value")⟩, some "sk-test",
   fun _ => .ok "the answer", "2026-01-01", "2026-01-01T12:00:00"⟩

/-- A world whose memory backend answers every search with one episodic
memory whose metadata carries the given book_message_id. -/
def dupWorld (id : String) : World :=
  ⟨fun _ _ => .ok ⟨200, "",
      .ok (.jobj [("content", .jobj [("episodic_memory",
        .jarr [.jobj [("metadata", .jobj [("book_message_id", .jstr id)])]])])])⟩,
   none, fun _ => .error (.requestError "no llm"), "2026-01-01", "2026-01-01T12:00:00"⟩

theorem pyFormat_unified (cj pr cb q : String) :
    pyFormat prompt_template
      [("config_json", cj), ("profile", pr), ("context_block", cb), ("query", q)] =
    .ok ("<SYSTEM_PROMPT>\n" ++ (cj ++ ("\n</SYSTEM_PROMPT>\n\n<DATA>\n<PROFILE>\n" ++
      (pr ++ ("\n</PROFILE>\n\n<BOOK_DATA>\n" ++ (cb ++ ("\n</BOOK_DATA>\n\n<USER_QUERY>\n" ++
        (q ++ "\n</USER_QUERY>\n</DATA>")))))))) := rfl

theorem pyStrip_empty : pyStrip "" = "" := rfl

theorem create_query_of_valid (p c : PyParam) (q d : String)
    (hq : pyStrip q ≠ "") (hp : p ≠ .pother) (hc : c ≠ .pother) :
    create_query p c q d = .ok (specExpectedQuery p c q d) := by
  have hq0 : ¬((q = "" || pyStrip q = "") = true) := by
    simp only [Bool.or_eq_true, decide_eq_true_eq]
    rintro (rfl | h)
    · exact hq pyStrip_empty
    · exact hq h
  delta create_query specExpectedQuery
  rw [if_neg hq0, if_neg hp, if_neg hc]
  cases p with
  | pother => exact absurd rfl hp
  | pnone =>
    cases c with
    | pother => exact absurd rfl hc
    | pnone => rfl
    | pstr s =>
      by_cases hs : s = ""
      · subst hs; rfl
      · simp only [if_neg hs]; rfl
  | pstr t =>
    cases c with
    | pother => exact absurd rfl hc
    | pnone =>
      by_cases ht : t = ""
      · subst ht; rfl
      · simp only [if_neg ht]; rfl
    | pstr s =>
      by_cases hs : s = ""
      · by_cases ht : t = ""
        · subst hs; subst ht; rfl
        · subst hs; simp only [if_neg ht]; rfl
      · by_cases ht : t = ""
        · subst ht; simp only [if_neg hs]; rfl
        · simp only [if_neg hs, if_neg ht]; rfl

theorem jsonEsc_dates_ne : jsonEsc "2026-01-01" ≠ jsonEsc "2026-01-02" := by decide

theorem dumpsObjItems_date_ne (d₁ d₂ : String) (hne : jsonEsc d₁ ≠ jsonEsc d₂) :
    ∀ (kvs : List (String × JVal)) (kv : String × JVal) (lvl : Nat),
      dumpsObjItems kv (kvs ++ [("CURRENT_DATE", .jstr d₁)]) lvl ≠
      dumpsObjItems kv (kvs ++ [("CURRENT_DATE", .jstr d₂)]) lvl := by
  intro kvs
  induction kvs with
  | nil =>
    rintro ⟨k, v⟩ lvl h
    simp only [List.nil_append, dumpsObjItems, dumpsVal, List.cons_append, List.append_assoc,
      List.cons.injEq, true_and, List.append_cancel_left_eq, List.append_cancel_right_eq] at h
    exact hne h
  | cons kv' kvs' ih =>
    rintro ⟨k, v⟩ lvl h
    simp only [List.cons_append, dumpsObjItems, List.append_assoc, List.cons.injEq, true_and,
      List.append_cancel_left_eq, List.append_cancel_right_eq] at h
    exact ih kv' lvl h

theorem configJsonFor_ne (d₁ d₂ : String) (hne : jsonEsc d₁ ≠ jsonEsc d₂) :
    configJsonFor d₁ ≠ configJsonFor d₂ := by
  intro h
  have h2 : dumpsVal (.jobj (CONFIG ++ [("CURRENT_DATE", .jstr d₁)])) 0
          = dumpsVal (.jobj (CONFIG ++ [("CURRENT_DATE", .jstr d₂)])) 0 := congrArg String.data h
  simp only [CONFIG, List.cons_append, List.nil_append, dumpsVal, List.append_assoc,
    List.cons.injEq, true_and, List.append_cancel_left_eq, List.append_cancel_right_eq] at h2
  exact dumpsObjItems_date_ne d₁ d₂ hne
    [("ROUTING_RULES", .jstr ROUTING_RULES),
     ("DATE_HANDLING_RULES", .jstr DATE_HANDLING_RULES),
     ("PLUS_N_MORE_RULES", .jstr PLUS_N_MORE_RULES),
     ("DATA_EXTRACTION_RULES", .jstr DATA_EXTRACTION_RULES),
     ("AVAILABLE_FIELDS", .jarr (AVAILABLE_FIELDS.map .jstr)),
     ("CANONICAL_FIELDS", .jarr (CANONICAL_FIELDS.map .jstr)),
     ("FIELD_ALIASES", .jobj (FIELD_ALIASES.map (fun kv : String × String => (kv.1, JVal.jstr kv.2)))),
     ("MULTIPLICITY_RULES", .jstr MULTIPLICITY_RULES),
     ("CLARIFICATION_RULES", .jstr CLARIFICATION_RULES),
     ("GENERAL_OUTPUT_RULES", .jstr GENERAL_OUTPUT_RULES),
     ("BOOK_OUTPUT_RULES", .jstr BOOK_OUTPUT_RULES),
     ("BOOK_LOGGING_RULES", .jstr BOOK_LOGGING_RULES),
     ("RECOMMENDATION_FORMAT", .jstr RECOMMENDATION_FORMAT),
     ("BOOK_OUTPUT_TEMPLATE", .jstr BOOK_OUTPUT_TEMPLATE)]
    ("SYSTEM_PROMPT", .jstr SYSTEM_PROMPT) (0 + 1) h2

/-- Counterexample to C5: the same profile, context and query produce
different strings on two different current dates, because create_query embeds
CURRENT_DATE into the serialized CONFIG. -/
theorem create_query_depends_on_current_date :
    create_query .pnone .pnone "hello" "2026-01-01" ≠
    create_query .pnone .pnone "hello" "2026-01-02" := by
  rw [create_query_of_valid _ _ _ _ (by decide) (by decide) (by decide),
      create_query_of_valid _ _ _ _ (by decide) (by decide) (by decide)]
  intro h
  have h1 : specExpectedQuery .pnone .pnone "hello" "2026-01-01"
          = specExpectedQuery .pnone .pnone "hello" "2026-01-02" := by
    injection h
  have h2 : "<SYSTEM_PROMPT>\n".data ++ ((configJsonFor "2026-01-01").data ++
        ("\n</SYSTEM_PROMPT>\n\n<DATA>\n<PROFILE>\n" ++ ("" ++ ("\n</PROFILE>\n\n<BOOK_DATA>\n" ++
          ("" ++ ("\n</BOOK_DATA>\n\n<USER_QUERY>\n" ++ ("hello" ++ "\n</USER_QUERY>\n</DATA>")))))).data) =
      "<SYSTEM_PROMPT>\n".data ++ ((configJsonFor "2026-01-02").data ++
        ("\n</SYSTEM_PROMPT>\n\n<DATA>\n<PROFILE>\n" ++ ("" ++ ("\n</PROFILE>\n\n<BOOK_DATA>\n" ++
          ("" ++ ("\n</BOOK_DATA>\n\n<USER_QUERY>\n" ++ ("hello" ++ "\n</USER_QUERY>\n</DATA>")))))).data) :=
    congrArg String.data h1
  have h3 := List.append_cancel_left h2
  have h4 := List.append_cancel_right h3
  exact configJsonFor_ne _ _ jsonEsc_dates_ne (String.ext h4)


/-- C1: for every non-empty, non-whitespace query and profile/context that are
each None or a string, create_query returns exactly the unified template with
config_json, profile, context_block and query substituted as specified. -/
theorem create_query_fills_unified_template (p c : PyParam) (q d : String)
    (hq : pyStrip q ≠ "") (hp : p ≠ .pother) (hc : c ≠ .pother) :
    create_query p c q d = .ok (specExpectedQuery p c q d) :=
  create_query_of_valid p c q d hq hp hc

/-- Witness for C1 at a concrete profile, context, query and date. -/
theorem create_query_fills_unified_template_witness :
    pyStrip "What should I read?" ≠ "" ∧
    create_query (.pstr "P") (.pstr "C") "What should I read?" "2026-01-01" =
      .ok (specExpectedQuery (.pstr "P") (.pstr "C") "What should I read?" "2026-01-01") :=
  ⟨by decide,
   create_query_fills_unified_template (.pstr "P") (.pstr "C") "What should I read?" "2026-01-01"
     (by decide) (by decide) (by decide)⟩

/-- C2: create_query raises ValueError exactly for empty/whitespace queries and
non-None non-str profile or context; a None profile acts as the empty string, a
None context as an empty context block; valid inputs yield a result. -/
theorem create_query_input_guards (p c : PyParam) (q d : String) :
    ((∃ m, create_query p c q d = .error (.valueError m)) ↔
      (pyStrip q = "" ∨ p = .pother ∨ c = .pother)) ∧
    create_query .pnone c q d = create_query (.pstr "") c q d ∧
    create_query p .pnone q d = create_query p (.pstr "") q d ∧
    (pyStrip q ≠ "" → p ≠ .pother → c ≠ .pother → ∃ s, create_query p c q d = .ok s) := by
  refine ⟨⟨?_, ?_⟩, ?_, ?_, ?_⟩
  · rintro ⟨m, hm⟩
    by_contra hcon
    push_neg at hcon
    obtain ⟨h1, h2, h3⟩ := hcon
    rw [create_query_of_valid p c q d h1 h2 h3] at hm
    exact Except.noConfusion hm
  · intro h
    rcases h with h | h | h
    · have hq : (q = "" || pyStrip q = "") = true := by simp [h]
      exact ⟨_, by delta create_query; rw [if_pos hq]⟩
    · by_cases hq : (q = "" || pyStrip q = "") = true
      · exact ⟨_, by delta create_query; rw [if_pos hq]⟩
      · exact ⟨_, by delta create_query; rw [if_neg hq, if_pos h]⟩
    · by_cases hq : (q = "" || pyStrip q = "") = true
      · exact ⟨_, by delta create_query; rw [if_pos hq]⟩
      · by_cases hp : p = .pother
        · exact ⟨_, by delta create_query; rw [if_neg hq, if_pos hp]⟩
        · exact ⟨_, by delta create_query; rw [if_neg hq, if_neg hp, if_pos h]⟩
  · rfl
  · rfl
  · intro h1 h2 h3
    exact ⟨_, create_query_of_valid p c q d h1 h2 h3⟩

/-- Witness for C2: a non-str profile raises ValueError, and a valid call
succeeds. -/
theorem create_query_input_guards_witness :
    (∃ m, create_query .pother .pnone "hi" "2026-01-01" = .error (.valueError m)) ∧
    (∃ s, create_query .pnone .pnone "hi" "2026-01-01" = .ok s) :=
  ⟨(create_query_input_guards .pother .pnone "hi" "2026-01-01").1.mpr (Or.inr (Or.inl rfl)),
   (create_query_input_guards .pnone .pnone "hi" "2026-01-01").2.2.2
     (by decide) (by decide) (by decide)⟩

/-- C10: the unified template holds exactly the four placeholders config_json,
profile, context_block and query, and create_query never raises RuntimeError. -/
theorem create_query_runtime_error_unreachable :
    templatePlaceholders prompt_template = ["config_json", "profile", "context_block", "query"] ∧
    ∀ (p c : PyParam) (q d m : String), create_query p c q d ≠ .error (.runtimeError m) := by
  refine ⟨rfl, ?_⟩
  intro p c q d m
  by_cases hq : (q = "" || pyStrip q = "") = true
  · delta create_query; rw [if_pos hq]
    intro h; injection h with h2; exact PyExc.noConfusion h2
  · by_cases hp : p = .pother
    · delta create_query; rw [if_neg hq, if_pos hp]
      intro h; injection h with h2; exact PyExc.noConfusion h2
    · by_cases hc : c = .pother
      · delta create_query; rw [if_neg hq, if_neg hp, if_pos hc]
        intro h; injection h with h2; exact PyExc.noConfusion h2
      · have hq' : pyStrip q ≠ "" := fun hh => hq (by simp [hh])
        rw [create_query_of_valid p c q d hq' hp hc]
        intro h; exact Except.noConfusion h

/-- Witness for C10 at a concrete (even invalid) input. -/
theorem create_query_runtime_error_unreachable_witness :
    create_query .pnone .pnone "" "2026-01-01" ≠ .error (.runtimeError "Failed") :=
  create_query_runtime_error_unreachable.2 .pnone .pnone "" "2026-01-01" "Failed"

/-- C5 (amended): among all ambient state, the constructed query depends only on
the profile, context, query and the current date: two worlds with the same
current date yield identical results whatever else differs. -/
theorem create_query_pure_given_date (w w' : World) (p c : PyParam) (q : String)
    (h : w.today = w'.today) :
    create_query_in w p c q = create_query_in w' p c q := by
  simp only [create_query_in, h]

/-- Witness for the amended C5: two worlds differing in backend, key and LLM
but sharing the date agree. -/
theorem create_query_pure_given_date_witness :
    create_query_in okWorld .pnone .pnone "hello" =
    create_query_in failWorld .pnone .pnone "hello" :=
  create_query_pure_given_date okWorld failWorld .pnone .pnone "hello" rfl


theorem catchAll_of_error {x : Except PyExc JVal × List Call} {e : PyExc}
    (h : x.1 = .error e) : (catchAll x).1 = errDict e := by
  obtain ⟨re, t⟩ := x
  cases re <;> simp_all [catchAll]

theorem catchAll_of_ok {x : Except PyExc JVal × List Call} {r : JVal}
    (h : x.1 = .ok r) : (catchAll x).1 = r := by
  obtain ⟨re, t⟩ := x
  cases re <;> simp_all [catchAll]

theorem catchAll_trace (x : Except PyExc JVal × List Call) : (catchAll x).2 = x.2 := by
  obtain ⟨re, t⟩ := x
  cases re <;> rfl

/-- C3: every endpoint catches every exception of its try-block and returns the
status error dictionary with the stringified exception, and returns the
try-block's value whenever no exception is raised. -/
theorem endpoints_catch_and_stringify (w : World) (uid q ts : String) (mid : Option String) :
    ((∀ e, (store_data_try w uid q mid).1 = .error e → (store_data w uid q mid).1 = errDict e) ∧
      (∀ r, (store_data_try w uid q mid).1 = .ok r → (store_data w uid q mid).1 = r)) ∧
    ((∀ e, (process_ai_query_try w uid q).1 = .error e → (process_ai_query w uid q).1 = errDict e) ∧
      (∀ r, (process_ai_query_try w uid q).1 = .ok r → (process_ai_query w uid q).1 = r)) ∧
    ((∀ e, (get_data_try w q uid ts).1 = .error e → (get_data w q uid ts).1 = errDict e) ∧
      (∀ r, (get_data_try w q uid ts).1 = .ok r → (get_data w q uid ts).1 = r)) ∧
    ((∀ e, (store_and_search_try w uid q).1 = .error e → (store_and_search_data w uid q).1 = errDict e) ∧
      (∀ r, (store_and_search_try w uid q).1 = .ok r → (store_and_search_data w uid q).1 = r)) :=
  ⟨⟨fun _ he => catchAll_of_error he, fun _ hr => catchAll_of_ok hr⟩,
   ⟨fun _ he => catchAll_of_error he, fun _ hr => catchAll_of_ok hr⟩,
   ⟨fun _ he => catchAll_of_error he, fun _ hr => catchAll_of_ok hr⟩,
   ⟨fun _ he => catchAll_of_error he, fun _ hr => catchAll_of_ok hr⟩⟩

/-- Witness for C3: on a world whose backend refuses connections, all four
endpoints return the stringified-error dictionary. -/
theorem endpoints_catch_and_stringify_witness :
    (store_data failWorld "u" "q" none).1 = errDict (.requestError "connection refused") ∧
    (process_ai_query failWorld "u" "q").1 = errDict (.requestError "connection refused") ∧
    (get_data failWorld "q" "u" "t").1 = errDict (.requestError "connection refused") ∧
    (store_and_search_data failWorld "u" "q").1 = errDict (.requestError "connection refused") :=
  ⟨(endpoints_catch_and_stringify failWorld "u" "q" "t" none).1.1 _ rfl,
   (endpoints_catch_and_stringify failWorld "u" "q" "t" none).2.1.1 _ rfl,
   (endpoints_catch_and_stringify failWorld "u" "q" "t" none).2.2.1.1 _ rfl,
   (endpoints_catch_and_stringify failWorld "u" "q" "t" none).2.2.2.1 _ rfl⟩


theorem pbind_len {α β : Type} (x : Except PyExc α × List Call)
    (f : α → Except PyExc β × List Call) (n m : Nat)
    (hx : x.2.length ≤ n) (hf : ∀ a, (f a).2.length ≤ m) :
    (pbind x f).2.length ≤ n + m := by
  obtain ⟨re, t⟩ := x
  cases re with
  | ok a =>
    simp only [pbind, List.length_append] at *
    exact Nat.add_le_add hx (hf a)
  | error e =>
    simp only [pbind] at *
    omega

theorem pbind_all {α β : Type} (p : Call → Bool) (x : Except PyExc α × List Call)
    (f : α → Except PyExc β × List Call)
    (hx : x.2.all p = true) (hf : ∀ a, (f a).2.all p = true) :
    (pbind x f).2.all p = true := by
  obtain ⟨re, t⟩ := x
  cases re with
  | ok a =>
    simp only [pbind, List.all_append, Bool.and_eq_true] at *
    exact ⟨hx, hf a⟩
  | error e => simpa [pbind] using hx

theorem generate_len (w : World) (fq : String) :
    (generate_openai_response w fq).2.length ≤ 1 := by
  simp only [generate_openai_response]
  cases w.openaiKey with
  | none => simp
  | some k => cases w.llmResult fq <;> simp

theorem generate_all (w : World) (fq : String) :
    (generate_openai_response w fq).2.all callFixedTimeout = true := by
  simp only [generate_openai_response]
  cases w.openaiKey with
  | none => simp
  | some k => cases w.llmResult fq <;> simp [callFixedTimeout]

theorem store_data_len (w : World) (uid q : String) (mid : Option String) :
    (store_data w uid q mid).2.length ≤ 2 := by
  rw [store_data, catchAll_trace]
  simp only [store_data_try]
  split
  · split
    · simp [is_book_message_processed]
    · refine le_trans (le_of_eq (List.length_append _ _)) ?_
      refine le_trans (Nat.add_le_add (le_of_eq rfl) ?_) (by norm_num : (1 : Nat) + 1 ≤ 2)
      refine pbind_len _ _ 1 0 (by simp [httpPost]) ?_
      intro resp
      refine pbind_len _ _ 0 0 (by simp [plift]) ?_
      intro u
      refine pbind_len _ _ 0 0 (by simp [plift]) ?_
      intro j
      simp [pret]
  · refine le_trans ?_ (by norm_num : (1 : Nat) + 0 ≤ 2)
    refine pbind_len _ _ 1 0 (by simp [httpPost]) ?_
    intro resp
    refine pbind_len _ _ 0 0 (by simp [plift]) ?_
    intro u
    refine pbind_len _ _ 0 0 (by simp [plift]) ?_
    intro j
    simp [pret]

theorem store_data_all (w : World) (uid q : String) (mid : Option String) :
    (store_data w uid q mid).2.all callFixedTimeout = true := by
  rw [store_data, catchAll_trace]
  simp only [store_data_try]
  split
  · split
    · simp [is_book_message_processed, callFixedTimeout]
    · rw [List.all_append, Bool.and_eq_true]
      refine ⟨by simp [is_book_message_processed, callFixedTimeout], ?_⟩
      refine pbind_all _ _ _ (by simp [httpPost, callFixedTimeout]) ?_
      intro resp
      refine pbind_all _ _ _ (by simp [plift]) ?_
      intro u
      refine pbind_all _ _ _ (by simp [plift]) ?_
      intro j
      simp [pret]
  · refine pbind_all _ _ _ (by simp [httpPost, callFixedTimeout]) ?_
    intro resp
    refine pbind_all _ _ _ (by simp [plift]) ?_
    intro u
    refine pbind_all _ _ _ (by simp [plift]) ?_
    intro j
    simp [pret]

theorem process_ai_query_len (w : World) (uid q : String) :
    (process_ai_query w uid q).2.length ≤ 2 := by
  rw [process_ai_query, catchAll_trace]
  simp only [process_ai_query_try]
  refine le_trans (pbind_len _ _ 1 1 (by simp [httpPost]) ?_) (by norm_num)
  intro resp
  refine pbind_len _ _ 0 1 (by simp [plift]) ?_
  intro u
  refine pbind_len _ _ 0 1 (by simp [plift]) ?_
  intro j
  refine pbind_len _ _ 0 1 (by simp [plift]) ?_
  intro epi
  refine pbind_len _ _ 0 1 (by simp [plift]) ?_
  intro prof
  refine pbind_len _ _ 0 1 (by simp [plift]) ?_
  intro fq
  simpa using generate_len w fq

theorem process_ai_query_all (w : World) (uid q : String) :
    (process_ai_query w uid q).2.all callFixedTimeout = true := by
  rw [process_ai_query, catchAll_trace]
  simp only [process_ai_query_try]
  refine pbind_all _ _ _ (by simp [httpPost, callFixedTimeout]) ?_
  intro resp
  refine pbind_all _ _ _ (by simp [plift]) ?_
  intro u
  refine pbind_all _ _ _ (by simp [plift]) ?_
  intro j
  refine pbind_all _ _ _ (by simp [plift]) ?_
  intro epi
  refine pbind_all _ _ _ (by simp [plift]) ?_
  intro prof
  refine pbind_all _ _ _ (by simp [plift]) ?_
  intro fq
  simpa using generate_all w fq

theorem get_data_len (w : World) (q uid ts : String) :
    (get_data w q uid ts).2.length ≤ 2 := by
  rw [get_data, catchAll_trace]
  simp only [get_data_try]
  refine le_trans (pbind_len _ _ 1 1 (by simp [httpPost]) ?_) (by norm_num)
  intro resp
  split
  · simp [pret]
  · refine pbind_len _ _ 0 1 (by simp [plift]) ?_
    intro j
    refine pbind_len _ _ 0 1 (by simp [plift]) ?_
    intro c
    refine pbind_len _ _ 0 1 (by simp [plift]) ?_
    intro epi
    refine pbind_len _ _ 0 1 (by simp [plift]) ?_
    intro prof
    refine pbind_len _ _ 0 1 (by simp [plift]) ?_
    intro fq
    simpa using generate_len w fq

theorem get_data_all (w : World) (q uid ts : String) :
    (get_data w q uid ts).2.all callFixedTimeout = true := by
  rw [get_data, catchAll_trace]
  simp only [get_data_try]
  refine pbind_all _ _ _ (by simp [httpPost, callFixedTimeout]) ?_
  intro resp
  split
  · simp [pret]
  · refine pbind_all _ _ _ (by simp [plift]) ?_
    intro j
    refine pbind_all _ _ _ (by simp [plift]) ?_
    intro c
    refine pbind_all _ _ _ (by simp [plift]) ?_
    intro epi
    refine pbind_all _ _ _ (by simp [plift]) ?_
    intro prof
    refine pbind_all _ _ _ (by simp [plift]) ?_
    intro fq
    simpa using generate_all w fq

theorem store_and_search_len (w : World) (uid q : String) :
    (store_and_search_data w uid q).2.length ≤ 2 := by
  rw [store_and_search_data, catchAll_trace]
  simp only [store_and_search_try]
  refine le_trans (pbind_len _ _ 1 1 (by simp [httpPost]) ?_) (by norm_num)
  intro resp
  split
  · simp [pret]
  · refine le_trans (pbind_len _ _ 1 0 (by simp [httpPost]) ?_) (by norm_num)
    intro sresp
    split
    · simp [pret]
    · refine pbind_len _ _ 0 0 (by simp [plift]) ?_
      intro u
      refine pbind_len _ _ 0 0 (by simp [plift]) ?_
      intro j
      refine pbind_len _ _ 0 0 (by simp [plift]) ?_
      intro c
      refine pbind_len _ _ 0 0 (by simp [plift]) ?_
      intro epi
      refine pbind_len _ _ 0 0 (by simp [plift]) ?_
      intro prof
      refine pbind_len _ _ 0 0 (by simp [plift]) ?_
      intro fq
      simp [pret]

theorem store_and_search_all (w : World) (uid q : String) :
    (store_and_search_data w uid q).2.all callFixedTimeout = true := by
  rw [store_and_search_data, catchAll_trace]
  simp only [store_and_search_try]
  refine pbind_all _ _ _ (by simp [httpPost, callFixedTimeout]) ?_
  intro resp
  split
  · simp [pret]
  · refine pbind_all _ _ _ (by simp [httpPost, callFixedTimeout]) ?_
    intro sresp
    split
    · simp [pret]
    · refine pbind_all _ _ _ (by simp [plift]) ?_
      intro u
      refine pbind_all _ _ _ (by simp [plift]) ?_
      intro j
      refine pbind_all _ _ _ (by simp [plift]) ?_
      intro c
      refine pbind_all _ _ _ (by simp [plift]) ?_
      intro epi
      refine pbind_all _ _ _ (by simp [plift]) ?_
      intro prof
      refine pbind_all _ _ _ (by simp [plift]) ?_
      intro fq
      simp [pret]

/-- C4 (amended): every endpoint issues at most two external requests per
invocation, every memory-backend request carries one of the fixed timeouts 10,
30 or 1000 seconds written at its call site, and the LLM call passes no
explicit timeout. -/
theorem endpoints_at_most_two_requests_fixed_timeouts
    (w : World) (uid q ts : String) (mid : Option String) :
    ((store_data w uid q mid).2.length ≤ 2 ∧
      (store_data w uid q mid).2.all callFixedTimeout = true) ∧
    ((process_ai_query w uid q).2.length ≤ 2 ∧
      (process_ai_query w uid q).2.all callFixedTimeout = true) ∧
    ((get_data w q uid ts).2.length ≤ 2 ∧
      (get_data w q uid ts).2.all callFixedTimeout = true) ∧
    ((store_and_search_data w uid q).2.length ≤ 2 ∧
      (store_and_search_data w uid q).2.all callFixedTimeout = true) :=
  ⟨⟨store_data_len w uid q mid, store_data_all w uid q mid⟩,
   ⟨process_ai_query_len w uid q, process_ai_query_all w uid q⟩,
   ⟨get_data_len w q uid ts, get_data_all w q uid ts⟩,
   ⟨store_and_search_len w uid q, store_and_search_all w uid q⟩⟩

/-- Counterexample to C4: POST /memory/store-and-search issues two HTTP
requests (a store and a search) in a single invocation, not exactly one. -/
theorem endpoint_single_request_false :
    (store_and_search_data badJsonWorld "u" "hello").2.length ≠ 1 := by
  rw [show (store_and_search_data badJsonWorld "u" "hello").2.length = 2 from rfl]
  decide


theorem pbind_ok {α β : Type} (a : α) (t : List Call) (f : α → Except PyExc β × List Call) :
    pbind (Except.ok a, t) f = ((f a).1, t ++ (f a).2) := rfl

theorem pbind_err {α β : Type} (e : PyExc) (t : List Call) (f : α → Except PyExc β × List Call) :
    pbind (Except.error e, t) f = (Except.error e, t) := rfl

theorem store_step_trace (w : World) (uid q : String) (mid : Option String) :
    (pbind (httpPost w memoriesUrl (episodeDataStore uid q w.nowIso mid) 1000) (fun resp =>
      pbind (plift (raiseForStatus resp memoriesUrl)) (fun _ =>
        pbind (plift resp.jsonBody) (fun j =>
          pret (JVal.jobj [("status", .jstr "success"), ("data", j)]))))).2 =
    [Call.mem memoriesUrl (episodeDataStore uid q w.nowIso mid) (some 1000)] := by
  simp only [httpPost, plift, pret]
  cases hw : w.memResponse memoriesUrl (episodeDataStore uid q w.nowIso mid) with
  | error e => simp only [pbind_err]
  | ok resp =>
    simp only [pbind_ok]
    cases hr : raiseForStatus resp memoriesUrl with
    | error e => simp [pbind_err]
    | ok u =>
      simp only [pbind_ok]
      cases hj : resp.jsonBody with
      | error e => simp [pbind_err]
      | ok j => simp [pbind_ok]

theorem store_data_trace_cases (w : World) (uid q : String) (mid : Option String) :
    (store_data w uid q mid).2 =
        [Call.mem searchUrl (searchBody uid ("session_" ++ uid) ("book_message_id " ++ mid.getD "") 5) (some 10)] ∨
    (store_data w uid q mid).2 =
        [Call.mem searchUrl (searchBody uid ("session_" ++ uid) ("book_message_id " ++ mid.getD "") 5) (some 10),
         Call.mem memoriesUrl (episodeDataStore uid q w.nowIso mid) (some 1000)] ∨
    (store_data w uid q mid).2 =
        [Call.mem memoriesUrl (episodeDataStore uid q w.nowIso mid) (some 1000)] := by
  rw [store_data, catchAll_trace]
  simp only [store_data_try, is_book_message_processed]
  split
  · split
    · exact Or.inl rfl
    · refine Or.inr (Or.inl ?_)
      rw [store_step_trace]
      rfl
  · exact Or.inr (Or.inr (store_step_trace w uid q mid))

/-- C6: every request POST /memory sends to the memory store endpoint carries
the episode dictionary built verbatim from the arguments: episode_content is
the query unchanged, producer is the user id, and the session dictionary's
session_id is "session_" followed by the user id. -/
theorem store_memory_forwards_fields_verbatim (w : World) (uid q : String) (mid : Option String) :
    ∀ c ∈ (store_data w uid q mid).2, ∀ b t, c = Call.mem memoriesUrl b t →
      b = episodeDataStore uid q w.nowIso mid ∧
      jLookup b "episode_content" = some (.jstr q) ∧
      jLookup b "producer" = some (.jstr uid) ∧
      ∃ s, jLookup b "session" = some s ∧
        jLookup s "session_id" = some (.jstr ("session_" ++ uid)) := by
  intro c hc b t hEq
  rcases store_data_trace_cases w uid q mid with ht | ht | ht <;> rw [ht] at hc <;>
    simp only [List.mem_singleton, List.mem_cons, List.not_mem_nil, or_false] at hc
  · subst hc
    injection hEq with h1 h2 h3
    exact absurd h1 (by decide)
  · rcases hc with hc | hc <;> subst hc
    · injection hEq with h1 h2 h3
      exact absurd h1 (by decide)
    · injection hEq with h1 h2 h3
      subst h2
      exact ⟨rfl, rfl, rfl, sessionJ uid ("session_" ++ uid), rfl, rfl⟩
  · subst hc
    injection hEq with h1 h2 h3
    subst h2
    exact ⟨rfl, rfl, rfl, sessionJ uid ("session_" ++ uid), rfl, rfl⟩

/-- Witness for C6: the concrete store request of a concrete invocation carries
the book query and user id verbatim. -/
theorem store_memory_forwards_fields_verbatim_witness :
    jLookup (episodeDataStore "u" "book" "2026-01-01T12:00:00" none) "episode_content" =
      some (.jstr "book") ∧
    jLookup (episodeDataStore "u" "book" "2026-01-01T12:00:00" none) "producer" =
      some (.jstr "u") ∧
    ∃ s, jLookup (episodeDataStore "u" "book" "2026-01-01T12:00:00" none) "session" = some s ∧
      jLookup s "session_id" = some (.jstr ("session_" ++ "u")) := by
  have h := store_memory_forwards_fields_verbatim okWorld "u" "book" none
    (Call.mem memoriesUrl (episodeDataStore "u" "book" "2026-01-01T12:00:00" none) (some 1000))
    (by rw [show (store_data okWorld "u" "book" none).2 =
          [Call.mem memoriesUrl (episodeDataStore "u" "book" "2026-01-01T12:00:00" none) (some 1000)]
        from rfl]
        exact List.mem_singleton_self _)
    (episodeDataStore "u" "book" "2026-01-01T12:00:00" none) (some 1000) rfl
  exact ⟨h.2.1, h.2.2.1, h.2.2.2⟩


theorem ebind_ok {α β : Type} (a : α) (f : α → Except PyExc β) :
    ((Except.ok a : Except PyExc α) >>= f) = f a := rfl

theorem ebind_err {α β : Type} (e : PyExc) (f : α → Except PyExc β) :
    ((Except.error e : Except PyExc α) >>= f) = .error e := rfl

/-- C8 (amended): on POST /memory with a truthy (non-null, non-empty)
book_message_id, when the duplicate check finds the id among the stored
episodic memories, the endpoint returns the skipped dictionary and issues no
store request to the memory backend. -/
theorem duplicate_skip_on_truthy_id (w : World) (uid q id : String) (hid : id ≠ "")
    (hdup : (is_book_message_processed w id uid ("session_" ++ uid)).1 = true) :
    (store_data w uid q (some id)).1 = skippedDict ∧
    ∀ c ∈ (store_data w uid q (some id)).2, ∀ b t, c ≠ Call.mem memoriesUrl b t := by
  have hmid : midTruthy (some id) = true := by simp [midTruthy, hid]
  have hget : (some id).getD "" = id := rfl
  rw [store_data]
  simp only [store_data_try, hmid, if_true, hget, hdup, reduceIte, catchAll]
  refine ⟨trivial, ?_⟩
  intro c hc b t hEq
  simp only [is_book_message_processed, List.mem_singleton] at hc
  subst hc
  injection hEq with h1 h2 h3
  exact absurd h1 (by decide)

/-- Witness for the amended C8: with a backend holding the id, the endpoint
skips instead of storing. -/
theorem duplicate_skip_on_truthy_id_witness :
    (store_data (dupWorld "m1") "u" "q" (some "m1")).1 = skippedDict :=
  (duplicate_skip_on_truthy_id (dupWorld "m1") "u" "q" "m1" (by decide) rfl).1

/-- Counterexample to C8 as stated: with the non-null but empty
book_message_id, the duplicate check would find the id, yet the endpoint does
not skip but stores (the truthiness test on the id short-circuits the check). -/
theorem duplicate_skip_fails_for_empty_id :
    (is_book_message_processed (dupWorld "") "" "u" ("session_" ++ "u")).1 = true ∧
    (store_data (dupWorld "") "u" "q" (some "")).1 ≠ skippedDict ∧
    ∃ b t, Call.mem memoriesUrl b t ∈ (store_data (dupWorld "") "u" "q" (some "")).2 := by
  refine ⟨rfl, ?_, ?_⟩
  · intro h
    have h2 : some (JVal.jstr "success") = some (JVal.jstr "skipped") :=
      congrArg (fun v => jLookup v "status") h
    injection h2 with h3
    injection h3 with h4
    exact absurd h4 (by decide)
  · refine ⟨episodeDataStore "u" "q" "2026-01-01T12:00:00" (some ""), some 1000, ?_⟩
    rw [show (store_data (dupWorld "") "u" "q" (some "")).2 =
          [Call.mem memoriesUrl (episodeDataStore "u" "q" "2026-01-01T12:00:00" (some "")) (some 1000)]
        from rfl]
    exact List.mem_singleton_self _

/-- C9: the duplicate check returns True exactly when the backend search
succeeds end to end and some returned episodic memory is a dict whose
metadata dict maps book_message_id to the searched id; in every other case,
including when the search request raises, it returns False. -/
theorem dup_check_fails_open (w : World) (id uid sid : String) :
    ((is_book_message_processed w id uid sid).1 = true ↔
      (∃ resp j epi items,
        w.memResponse searchUrl (searchBody uid sid ("book_message_id " ++ id) 5) = .ok resp ∧
        raiseForStatus resp searchUrl = .ok () ∧
        resp.jsonBody = .ok j ∧
        contentEpisodic j = .ok epi ∧
        pyIter epi = .ok items ∧
        ∃ m ∈ items, memMatches m id = true)) ∧
    (∀ e, w.memResponse searchUrl (searchBody uid sid ("book_message_id " ++ id) 5) = .error e →
      (is_book_message_processed w id uid sid).1 = false) := by
  constructor
  · simp only [is_book_message_processed]
    constructor
    · intro h
      cases hw : w.memResponse searchUrl (searchBody uid sid ("book_message_id " ++ id) 5) with
      | error e =>
          rw [hw] at h
          simp only [ebind_err, exceptToBoolFalse] at h
          exact absurd h Bool.false_ne_true
      | ok resp =>
          rw [hw] at h
          simp only [ebind_ok] at h
          cases hr : raiseForStatus resp searchUrl with
          | error e =>
              rw [hr] at h
              simp only [ebind_err, exceptToBoolFalse] at h
              exact absurd h Bool.false_ne_true
          | ok u =>
              cases u
              rw [hr] at h
              simp only [ebind_ok] at h
              cases hj : resp.jsonBody with
              | error e =>
                  rw [hj] at h
                  simp only [ebind_err, exceptToBoolFalse] at h
                  exact absurd h Bool.false_ne_true
              | ok j =>
                  rw [hj] at h
                  simp only [ebind_ok] at h
                  cases he : contentEpisodic j with
                  | error e =>
                      rw [he] at h
                      simp only [ebind_err, exceptToBoolFalse] at h
                      exact absurd h Bool.false_ne_true
                  | ok epi =>
                      rw [he] at h
                      simp only [ebind_ok] at h
                      cases hi : pyIter epi with
                      | error e =>
                          rw [hi] at h
                          simp only [ebind_err, exceptToBoolFalse] at h
                          exact absurd h Bool.false_ne_true
                      | ok items =>
                          rw [hi] at h
                          simp only [ebind_ok] at h
                          replace h : items.any (fun m => memMatches m id) = true := h
                          obtain ⟨m, hm, hmm2⟩ := List.any_eq_true.mp h
                          exact ⟨resp, j, epi, items, rfl, hr, hj, he, hi, m, hm, hmm2⟩
    · rintro ⟨resp, j, epi, items, hw, hr, hj, he, hi, m, hm, hmm2⟩
      rw [hw]
      simp only [ebind_ok]
      rw [hr]
      simp only [ebind_ok]
      rw [hj]
      simp only [ebind_ok]
      rw [he]
      simp only [ebind_ok]
      rw [hi]
      simp only [ebind_ok]
      exact List.any_eq_true.mpr ⟨m, hm, hmm2⟩
  · intro e he
    simp only [is_book_message_processed]
    rw [he]
    rfl

/-- Witness for C9: a backend that raises yields False from the check. -/
theorem dup_check_fails_open_witness :
    (is_book_message_processed failWorld "m" "u" "session_u").1 = false :=
  (dup_check_fails_open failWorld "m" "u" "session_u").2 (.requestError "connection refused") rfl


/-- C7: POST /ai-query first issues one semantic search with limit 20 and the
producer_id filter, builds the prompt from the returned profile and episodic
memories via create_query, sends that prompt to the LLM, and on success
returns the dictionary whose ai_response and response both equal the LLM
answer and whose formatted_query equals the constructed prompt; the trace is
the search call followed by the LLM call. -/
theorem ai_query_two_stage_forwarding (w : World) (uid q : String)
    (resp : HttpResp) (j epi prof : JVal) (fq ans k : String)
    (hw : w.memResponse searchUrl (searchBody uid ("session_" ++ uid) q 20) = .ok resp)
    (hr : raiseForStatus resp searchUrl = .ok ())
    (hj : resp.jsonBody = .ok j)
    (he : contentEpisodic j = .ok epi)
    (hp : contentProfile j = .ok prof)
    (hfq : create_query (.pstr (memToStr prof)) (.pstr (memToStr epi)) q w.today = .ok fq)
    (hk : w.openaiKey = some k)
    (hllm : w.llmResult fq = .ok ans) :
    process_ai_query w uid q =
      (.jobj [("status", .jstr "success"),
              ("ai_response", .jstr ans),
              ("response", .jstr ans),
              ("context", .jstr (memToStr epi)),
              ("formatted_query", .jstr fq),
              ("query", .jstr q)],
       [Call.mem searchUrl (searchBody uid ("session_" ++ uid) q 20) (some 30),
        Call.llm fq none]) := by
  rw [process_ai_query]
  simp only [process_ai_query_try, httpPost, plift, pret, hw, pbind_ok, hr, hj, he, hp, hfq,
    generate_openai_response, hk, hllm, catchAll]
  rfl

/-- Witness for C7: a concrete world with an empty memory store and a stubbed
LLM answer produces the success dictionary built around the constructed
prompt. -/
theorem ai_query_two_stage_forwarding_witness :
    process_ai_query okWorld "u" "hi" =
      (.jobj [("status", .jstr "success"),
              ("ai_response", .jstr "the answer"),
              ("response", .jstr "the answer"),
              ("context", .jstr (memToStr (.jarr []))),
              ("formatted_query", .jstr (specExpectedQuery (.pstr (memToStr (.jarr [])))
                (.pstr (memToStr (.jarr []))) "hi" "2026-01-01")),
              ("query", .jstr "hi")],
       [Call.mem searchUrl (searchBody "u" ("session_" ++ "u") "hi" 20) (some 30),
        Call.llm (specExpectedQuery (.pstr (memToStr (.jarr []))) (.pstr (memToStr (.jarr [])))
          "hi" "2026-01-01") none]) :=
  ai_query_two_stage_forwarding okWorld "u" "hi" ⟨200, "", .ok (.jobj [])⟩ (.jobj [])
    (.jarr []) (.jarr [])
    (specExpectedQuery (.pstr (memToStr (.jarr []))) (.pstr (memToStr (.jarr []))) "hi" "2026-01-01")
    "the answer" "sk-test"
    rfl rfl rfl rfl rfl
    (create_query_of_valid _ _ _ _ (by decide) (by decide) (by decide))
    rfl rfl

end BookAgent
